import Mathlib

/-!
Verification development for the prompt-relay service in `main.py`.

The service exposes `POST /chat`: it forwards a composed prompt to an
upstream generative API, extracts a JSON object embedded in the free-form
upstream text, maps it to a typed response, and falls back to a fixed
apology response on any failure.  It also exposes `GET/HEAD /ping`.

Modelling conventions:
* Python/JSON numbers are modelled as exact rationals (`Q` below).  IEEE
  rounding, `inf`/`nan` and underscore digit separators are outside the
  model and are noted where relevant.
* JSON values after `json.loads` are modelled by the inductive `JVal`.
* Exceptions are modelled by `Option`/`Except`: a stage that raises is a
  stage that returns `none`, and the `try/except` barrier of the handler
  becomes `Option.getD` with the fixed fallback response.
* The two regular expressions of the extractor are modelled by explicit
  scanners (`bodyF`, `searchFrom`, `search2`) whose structure mirrors the
  patterns; see the comments at their definitions.
-/

/-! ## Exact rationals

`Q` stands for the numeric values flowing through the pipeline (Python
ints and floats, JSON numbers).  All constructors normalize via `mkQ`,
and every operation the code performs on these values is either a
conversion (`float(...)`) or a pass-through, so no field arithmetic is
needed.  A fuel-driven Euclid keeps everything kernel-reducible. -/

structure Q where
  num : Int
  den : Nat
deriving DecidableEq, Repr

def gcdFuel : Nat → Nat → Nat → Nat
  | 0, _, b => b
  | _ + 1, 0, b => b
  | f + 1, a + 1, b => gcdFuel f (b % (a + 1)) (a + 1)

def natGcd (a b : Nat) : Nat := gcdFuel (a + 1) a b

/-- Normalized rational `n / d` (with `d ≠ 0` at every use site). -/
def mkQ (n : Int) (d : Nat) : Q :=
  if d = 0 then ⟨0, 0⟩
  else
    let g := natGcd n.natAbs d
    ⟨n / (g : Int), d / g⟩

def qZero : Q := mkQ 0 1

/-- Value of a decimal literal: `±mant · 10^e`. -/
def decQ (neg : Bool) (mant : Nat) (e : Int) : Q :=
  let n : Int := if neg then -(mant : Int) else (mant : Int)
  if 0 ≤ e then mkQ (n * (10 : Int) ^ e.toNat) 1
  else mkQ n ((10 : Nat) ^ (-e).toNat)

/-! ## JSON values

Result type of `json.loads`.  Python distinguishes `int` from `float`,
which matters for `str(...)`, so the model keeps both. -/

inductive JVal where
  | null
  | bool (b : Bool)
  | int (n : Int)
  | num (q : Q)
  | str (s : String)
  | arr (xs : List JVal)
  | obj (kvs : List (String × JVal))

/-- Whether a value is a JSON object (a Python `dict`). -/
def JVal.isObj : JVal → Bool
  | .obj _ => true
  | _ => false

/-- Python `dict.get k`: value of the key, last duplicate winning, as
`json.loads` builds dicts.  Models the `.get(...)` calls of lines
130-138 of `main.py`. -/
def getKey : List (String × JVal) → String → Option JVal
  | [], _ => none
  | (k', v) :: rest, k =>
    match getKey rest k with
    | some w => some w
    | none => if k' = k then some v else none

/-! ## The first extractor regex (lines 117-121 of `main.py`)

The pattern is three nested copies of the same alternative:

  `\x7b(?:[^\x7b\x7d]|\x7b(?:[^\x7b\x7d]|\x7b[^\x7b\x7d]*\x7d)*\x7d)*\x7d`

i.e. a brace-delimited block whose items are non-brace characters or
sub-blocks, nested at most three brace levels deep.  `bodyF fuel k l`
parses the interior of such a block (the items followed by the closing
brace) where sub-blocks may use `k` further levels; the full pattern is
an opening brace followed by `bodyF _ 2`.  At any given start position
the pattern matches at most one span (a block never has a proper prefix
that is also a block), so the backtracking regex is equivalent to this
deterministic scanner.  `fuel` only bounds recursion; `input length + 1`
always suffices since every call descends at least one character. -/

def bodyF : Nat → Nat → List Char → Option (List Char × List Char)
  | 0, _, _ => none
  | _ + 1, _, [] => none
  | f + 1, k, c :: t =>
    if c = '}' then some ([c], t)
    else if c = '{' then
      match k with
      | 0 => none
      | k' + 1 =>
        match bodyF f k' t with
        | some (m1, r1) =>
          match bodyF f (k' + 1) r1 with
          | some (m2, r2) => some (c :: (m1 ++ m2), r2)
          | none => none
        | none => none
    else
      match bodyF f k t with
      | some (m, r) => some (c :: m, r)
      | none => none

/-- Match of the first regex anchored at the head of `l`. -/
def matchAt (l : List Char) : Option (List Char) :=
  match l with
  | [] => none
  | c :: t =>
    if c = '{' then
      match bodyF (t.length + 1) 2 t with
      | some (m, _) => some (c :: m)
      | none => none
    else none

/-- `re.search` of the first regex: leftmost position whose anchored
match succeeds. -/
def searchFrom : List Char → Option (List Char)
  | [] => none
  | c :: t =>
    match matchAt (c :: t) with
    | some m => some m
    | none => searchFrom t

/-! ## The second, greedy regex (line 123 of `main.py`)

`re.search` of `\x7b.*\x7d` with `DOTALL` matches from the first `\x7b`
through the last `\x7d` of the whole text, provided that `\x7d` comes
after that `\x7b`; with no such pair there is no match (positions after
the first `\x7b` see no `\x7d` either, and earlier positions cannot
start the pattern). -/

def upToLastRBrace : List Char → Option (List Char)
  | [] => none
  | c :: t =>
    match upToLastRBrace t with
    | some m => some (c :: m)
    | none => if c = '}' then some [c] else none

def search2 : List Char → Option (List Char)
  | [] => none
  | c :: t => if c = '{' then (upToLastRBrace t).map (fun m => c :: m) else search2 t

/-- Lines 117-123: first the nested-brace regex, then the greedy one. -/
def extract (l : List Char) : Option (List Char) :=
  match searchFrom l with
  | some m => some m
  | none => search2 l

/-! ## Specification-side balanced-brace definitions

Two definitions follow the specification's words rather than the code,
for refinement comparison only.  `specBalancedSpan` is the scanner of
design note §9: from the first opening brace, track a depth counter and
return the span when the depth returns to zero.  `BalBody` is the graded
grammar of block interiors: `BalBody d m` says `m` is a run of items
(non-brace characters or balanced sub-blocks nested at most `d` further
levels) followed by the closing brace. -/

def specScan : List Char → Nat → Option (List Char)
  | [], _ => none
  | c :: t, d =>
    if c = '{' then (specScan t (d + 1)).map (fun m => c :: m)
    else if c = '}' then
      if d = 1 then some [c] else (specScan t (d - 1)).map (fun m => c :: m)
    else (specScan t d).map (fun m => c :: m)

def specBalancedSpan : List Char → Option (List Char)
  | [] => none
  | c :: t =>
    if c = '{' then (specScan t 1).map (fun m => c :: m)
    else specBalancedSpan t

inductive BalBody : Nat → List Char → Prop
  | close {d} : BalBody d ['}']
  | chr {d c t} : c ≠ '{' → c ≠ '}' → BalBody d t → BalBody d (c :: t)
  | obj {d inner rest} : BalBody d inner → BalBody (d + 1) rest →
      BalBody (d + 1) ('{' :: (inner ++ rest))

/-! ## JSON parsing (`json.loads`, external collaborator)

A recursive-descent parser for RFC 8259 JSON as `json.loads` accepts it
with default settings.  Outside the model: the non-standard constants
`NaN`/`Infinity`/`-Infinity` (their values are not rationals) and
surrogate-pair recombination of consecutive `\uXXXX` escapes. -/

def skipWs : List Char → List Char
  | [] => []
  | c :: t => if c = ' ' ∨ c = '\t' ∨ c = '\n' ∨ c = '\r' then skipWs t else c :: t

def escChar : Char → Option Char
  | '"' => some '"'
  | '\\' => some '\\'
  | '/' => some '/'
  | 'b' => some (Char.ofNat 8)
  | 'f' => some (Char.ofNat 12)
  | 'n' => some '\n'
  | 'r' => some '\r'
  | 't' => some '\t'
  | _ => none

def hexVal (c : Char) : Option Nat :=
  if c.isDigit then some (c.toNat - 48)
  else if 'a' ≤ c ∧ c ≤ 'f' then some (c.toNat - 87)
  else if 'A' ≤ c ∧ c ≤ 'F' then some (c.toNat - 55)
  else none

/-- Interior of a JSON string after the opening quote, up to and past the
closing quote.  Raw control characters and unknown escapes are rejected,
as in strict-mode `json.loads`. -/
def parseStrBody : List Char → Option (List Char × List Char)
  | [] => none
  | '"' :: t => some ([], t)
  | '\\' :: 'u' :: a :: b :: c :: d :: t2 =>
    match hexVal a, hexVal b, hexVal c, hexVal d with
    | some x, some y, some z, some w =>
      (parseStrBody t2).map (fun p => (Char.ofNat (4096 * x + 256 * y + 16 * z + w) :: p.1, p.2))
    | _, _, _, _ => none
  | '\\' :: e :: t =>
    match escChar e with
    | some c => (parseStrBody t).map (fun p => (c :: p.1, p.2))
    | none => none
  | c :: t => if c.toNat < 32 then none else (parseStrBody t).map (fun p => (c :: p.1, p.2))

def readDigits : List Char → List Char × List Char
  | [] => ([], [])
  | c :: t =>
    if c.isDigit then
      let (ds, r) := readDigits t
      (c :: ds, r)
    else ([], c :: t)

def digitsToNat (ds : List Char) : Nat :=
  ds.foldl (fun acc c => 10 * acc + (c.toNat - 48)) 0

/-- Optional exponent part.  `some (none, l)` means no exponent marker;
a marker with malformed digits is a parse error (`none`). -/
def parseExpOpt : List Char → Option (Option Int × List Char)
  | 'e' :: t =>
    (match t with
     | '+' :: r =>
       match readDigits r with
       | ([], _) => none
       | (ds, r2) => some (some (digitsToNat ds : Int), r2)
     | '-' :: r =>
       match readDigits r with
       | ([], _) => none
       | (ds, r2) => some (some (-(digitsToNat ds : Int)), r2)
     | _ =>
       match readDigits t with
       | ([], _) => none
       | (ds, r2) => some (some (digitsToNat ds : Int), r2))
  | 'E' :: t =>
    (match t with
     | '+' :: r =>
       match readDigits r with
       | ([], _) => none
       | (ds, r2) => some (some (digitsToNat ds : Int), r2)
     | '-' :: r =>
       match readDigits r with
       | ([], _) => none
       | (ds, r2) => some (some (-(digitsToNat ds : Int)), r2)
     | _ =>
       match readDigits t with
       | ([], _) => none
       | (ds, r2) => some (some (digitsToNat ds : Int), r2))
  | l => some (none, l)

/-- JSON number: `-?(0|[1-9][0-9]*)(\.[0-9]+)?([eE][+-]?[0-9]+)?`.
Plain integer literals become Python `int`, anything with a fraction or
exponent becomes `float`. -/
def parseNumber (l : List Char) : Option (JVal × List Char) :=
  let sp : Bool × List Char :=
    match l with
    | '-' :: t => (true, t)
    | _ => (false, l)
  let neg := sp.1
  let (ip, r1) := readDigits sp.2
  if ip = [] then none
  else if 2 ≤ ip.length ∧ ip.headD '0' = '0' then none
  else
    match r1 with
    | '.' :: r2 =>
      (match readDigits r2 with
       | ([], _) => none
       | (fp, r3) =>
         match parseExpOpt r3 with
         | some (eo, r4) =>
           some (.num (decQ neg (digitsToNat (ip ++ fp)) ((eo.getD 0) - (fp.length : Int))), r4)
         | none => none)
    | _ =>
      match parseExpOpt r1 with
      | some (none, r4) =>
        some (.int (if neg then -(digitsToNat ip : Int) else (digitsToNat ip : Int)), r4)
      | some (some e, r4) => some (.num (decQ neg (digitsToNat ip) e), r4)
      | none => none

mutual

def parseVal : Nat → List Char → Option (JVal × List Char)
  | 0, _ => none
  | fuel + 1, l =>
    match skipWs l with
    | 'n' :: 'u' :: 'l' :: 'l' :: t => some (.null, t)
    | 't' :: 'r' :: 'u' :: 'e' :: t => some (.bool true, t)
    | 'f' :: 'a' :: 'l' :: 's' :: 'e' :: t => some (.bool false, t)
    | '"' :: t => (parseStrBody t).map (fun p => (.str (String.mk p.1), p.2))
    | '{' :: t =>
      (match skipWs t with
       | '}' :: t2 => some (.obj [], t2)
       | t2 => (parseMembers fuel t2).map (fun p => (.obj p.1, p.2)))
    | '[' :: t =>
      (match skipWs t with
       | ']' :: t2 => some (.arr [], t2)
       | t2 => (parseElems fuel t2).map (fun p => (.arr p.1, p.2)))
    | l2 => parseNumber l2

def parseMembers : Nat → List Char → Option (List (String × JVal) × List Char)
  | 0, _ => none
  | fuel + 1, l =>
    match skipWs l with
    | '"' :: t =>
      (match parseStrBody t with
       | some (k, r) =>
         (match skipWs r with
          | ':' :: r2 =>
            (match parseVal fuel r2 with
             | some (v, r3) =>
               (match skipWs r3 with
                | ',' :: r4 => (parseMembers fuel r4).map (fun p => ((String.mk k, v) :: p.1, p.2))
                | '}' :: r4 => some ([(String.mk k, v)], r4)
                | _ => none)
             | none => none)
          | _ => none)
       | none => none)
    | _ => none

def parseElems : Nat → List Char → Option (List JVal × List Char)
  | 0, _ => none
  | fuel + 1, l =>
    match parseVal fuel l with
    | some (v, r) =>
      (match skipWs r with
       | ',' :: r2 => (parseElems fuel r2).map (fun p => (v :: p.1, p.2))
       | ']' :: r2 => some ([v], r2)
       | _ => none)
    | none => none

end

/-- `json.loads`: one JSON value spanning the whole input up to
whitespace.  `length + 1` fuel suffices: every descent first consumes at
least one character. -/
def jsonParse (s : String) : Option JVal :=
  match parseVal (s.length + 1) s.toList with
  | some (v, r) => if skipWs r = [] then some v else none
  | none => none

/-! ## Python coercions used by the field mapping

`float(x)` (lines 135-138) accepts ints, floats, booleans and numeric
strings, and raises `TypeError`/`ValueError` on everything else.
`str(x)` (line 133) never fails.  Outside the model for `float(str)`:
`inf`/`nan` spellings (not rationals) and underscore digit separators.
`str(float)` is modelled as the exact shortest decimal form, ignoring
binary rounding, and container `repr` uses single-quoted strings without
escape processing. -/

def pySpace (c : Char) : Bool :=
  c = ' ' ∨ c = '\t' ∨ c = '\n' ∨ c = '\r' ∨ c = Char.ofNat 11 ∨ c = Char.ofNat 12

/-- Python `float(s)` for a string argument. -/
def pyFloatOfString (s : String) : Option Q :=
  let l := ((s.toList.dropWhile pySpace).reverse.dropWhile pySpace).reverse
  let sp : Bool × List Char :=
    match l with
    | '-' :: t => (true, t)
    | '+' :: t => (false, t)
    | _ => (false, l)
  let (ip, r1) := readDigits sp.2
  match r1 with
  | '.' :: r2 =>
    (match readDigits r2 with
     | (fp, r3) =>
       if ip = [] ∧ fp = [] then none
       else
         match parseExpOpt r3 with
         | some (eo, r4) =>
           if r4 = [] then
             some (decQ sp.1 (digitsToNat (ip ++ fp)) ((eo.getD 0) - (fp.length : Int)))
           else none
         | none => none)
  | _ =>
    if ip = [] then none
    else
      match parseExpOpt r1 with
      | some (eo, r4) =>
        if r4 = [] then some (decQ sp.1 (digitsToNat ip) (eo.getD 0)) else none
      | none => none

/-- Python `float(x)`; `none` models a raised exception. -/
def pyFloat : JVal → Option Q
  | .int n => some (mkQ n 1)
  | .num q => some q
  | .bool true => some (mkQ 1 1)
  | .bool false => some (mkQ 0 1)
  | .str s => pyFloatOfString s
  | .null => none
  | .arr _ => none
  | .obj _ => none

/-- Shortest exact decimal form of a float value (model of `str(float)`
for values with a finite decimal expansion). -/
def qFloatRepr (q : Q) : String :=
  match (List.range 23).find? (fun k => 10 ^ k % q.den = 0) with
  | some 0 => toString q.num ++ ".0"
  | some (k + 1) =>
    let scaled : Int := q.num * (((10 ^ (k + 1) : Nat) / q.den : Nat) : Int)
    let s := toString scaled.natAbs
    let s := if s.length ≤ k + 1 then String.mk (List.replicate (k + 2 - s.length) '0') ++ s else s
    (if q.num < 0 then "-" else "") ++ s.dropRight (k + 1) ++ "." ++ s.takeRight (k + 1)
  | none => toString q.num ++ "/" ++ toString q.den

def quoteChar : String := String.singleton (Char.ofNat 39)

mutual

/-- Python `repr(x)` for values that come out of `json.loads`. -/
def pyRepr : JVal → String
  | .null => "None"
  | .bool true => "True"
  | .bool false => "False"
  | .int n => toString n
  | .num q => qFloatRepr q
  | .str s => quoteChar ++ s ++ quoteChar
  | .arr xs => "[" ++ String.intercalate ", " (pyReprList xs) ++ "]"
  | .obj kvs => "\x7b" ++ String.intercalate ", " (pyReprMembers kvs) ++ "\x7d"

def pyReprList : List JVal → List String
  | [] => []
  | v :: vs => pyRepr v :: pyReprList vs

def pyReprMembers : List (String × JVal) → List String
  | [] => []
  | (k, v) :: kvs => (quoteChar ++ k ++ quoteChar ++ ": " ++ pyRepr v) :: pyReprMembers kvs

end

/-- Python `str(x)`: identity on strings, `repr` otherwise. -/
def pyStr : JVal → String
  | .str s => s
  | v => pyRepr v

/-! ## Typed response data model (lines 50-62 of `main.py`)

`Emotion.fun` is spelled `fun_` (`fun` is reserved in Lean). -/

structure Emotion where
  joy : Q
  anger : Q
  sadness : Q
  fun_ : Q
deriving DecidableEq, Repr

structure UnityResponse where
  message : String
  emotion : Emotion
deriving DecidableEq, Repr

/-- Fixed fallback of the `except` clause (lines 144-152). -/
def fallbackResponse : UnityResponse :=
  ⟨"エラーが発生しました", ⟨qZero, qZero, qZero, qZero⟩⟩

/-! ## The `/chat` pipeline (lines 99-152 of `main.py`) -/

/-- Lines 129-140: field mapping from the parsed object.
`parsed.get("emotion", {})` defaults an absent key to an empty dict;
`.get` on a non-dict raises `AttributeError` (`none`); each `float(...)`
call can raise (`none`), aborting the whole mapping. -/
def mapFields : JVal → Option UnityResponse
  | .obj kvs =>
    (match (getKey kvs "emotion").getD (.obj []) with
     | .obj ekvs =>
       (match pyFloat ((getKey ekvs "joy").getD (.num qZero)),
              pyFloat ((getKey ekvs "anger").getD (.num qZero)),
              pyFloat ((getKey ekvs "sadness").getD (.num qZero)),
              pyFloat ((getKey ekvs "fun").getD (.num qZero)) with
        | some j, some a, some s, some f =>
          some ⟨pyStr ((getKey kvs "message").getD (.str "")), ⟨j, a, s, f⟩⟩
        | _, _, _, _ => none)
     | _ => none)
  | _ => none

/-- Lines 109-114: dig `candidates[0].content.parts[0].text` out of the
upstream response body.  Any shape mismatch raises (`KeyError`,
`IndexError`, `TypeError` or the explicit `ValueError`s), and a
non-string or empty `text` also ends in a raise (line 113-114, or the
`TypeError` from `re.search` on a non-string), so all of those are
`none`. -/
def candidateText : JVal → Option String
  | .obj kvs =>
    match getKey kvs "candidates" with
    | some (.arr (.obj c0 :: _)) =>
      (match getKey c0 "content" with
       | some (.obj ct) =>
         (match getKey ct "parts" with
          | some (.arr (.obj p0 :: _)) =>
            (match getKey p0 "text" with
             | some (.str s) => if s = "" then none else some s
             | _ => none)
          | _ => none)
       | _ => none)
    | _ => none
  | _ => none

/-- Lines 117-140 applied to the raw upstream text: extract a span,
parse it, map the fields; `none` is a raised exception somewhere. -/
def pipeline (raw : String) : Option UnityResponse :=
  match extract raw.toList with
  | some span =>
    (match jsonParse (String.mk span) with
     | some j => mapFields j
     | none => none)
  | none => none

/-- The `/chat` body computed from the upstream text alone. -/
def chatFromText (raw : String) : UnityResponse :=
  (pipeline raw).getD fallbackResponse

/-- Outcome of the upstream call (lines 100-107): `err` is any raise in
`requests.post` (network failure, timeout), `raise_for_status` (non-2xx)
or `resp.json()` (non-JSON body); `ok body` is a decoded 2xx body. -/
inductive UpstreamResult where
  | err
  | ok (body : JVal)

def candidateTextOf : UpstreamResult → Option String
  | .err => none
  | .ok body => candidateText body

/-- The whole `try` block of the handler as a partial computation. -/
def pipelineOf : UpstreamResult → Option UnityResponse
  | .err => none
  | .ok body =>
    match candidateText body with
    | some raw => pipeline raw
    | none => none

/-- The `/chat` handler: the `except Exception` barrier turns every
failed stage into the fixed fallback, and a normal return from a FastAPI
handler is an HTTP 200, so the status is the constant 200. -/
def chat (u : UpstreamResult) : Nat × UnityResponse :=
  (200, (pipelineOf u).getD fallbackResponse)

/-! ## Module start-up (lines 37-45) and `/ping` (lines 157-159) -/

/-- Lines 37-40: `os.getenv` yields `none` when the variable is unset;
`if not GEMINI_API_KEY` also treats the empty string as missing, and the
module raises `RuntimeError` before the app object can serve anything. -/
def startupCheck : Option String → Except String Unit
  | none => .error "GEMINI_API_KEY is not set"
  | some k => if k = "" then .error "GEMINI_API_KEY is not set" else .ok ()

/-- Names bound in the module namespace of `main.py` before the `def
ping` statement on line 158 executes (imports of lines 2-10 plus the
module-level assignments and definitions). -/
def mainModuleNames : List String :=
  ["os", "re", "json", "logging", "requests", "FastAPI", "CORSMiddleware", "BaseModel",
   "logger", "app", "GEMINI_API_KEY", "GEMINI_URL", "UnityRequest", "Emotion",
   "UnityResponse", "chat"]

/-- Evaluation of the parameter annotation `request: Request` at `def`
time: the name must resolve in the module namespace (or builtins, where
`Request` does not live either). -/
def pingAnnotationResolves : Bool := mainModuleNames.contains "Request"

/-- The value line 159 would return. -/
def pingReturn : JVal := .obj [("status", .str "ok")]

/-! ## Helper lemmas -/

theorem matchAt_cons_ne (c : Char) (t : List Char) (h : c ≠ '{') :
    matchAt (c :: t) = none := by
  simp [matchAt, h]

theorem searchFrom_eq_none_of_no_brace (l : List Char) (h : '{' ∉ l) :
    searchFrom l = none := by
  induction l with
  | nil => rfl
  | cons c t ih =>
    have hc : c ≠ '{' := fun hc => h (hc ▸ List.mem_cons_self c t)
    have ht : '{' ∉ t := fun ht => h (List.mem_cons_of_mem c ht)
    simp [searchFrom, matchAt_cons_ne c t hc, ih ht]

theorem search2_eq_none_of_no_brace (l : List Char) (h : '{' ∉ l) :
    search2 l = none := by
  induction l with
  | nil => rfl
  | cons c t ih =>
    have hc : c ≠ '{' := fun hc => h (hc ▸ List.mem_cons_self c t)
    have ht : '{' ∉ t := fun ht => h (List.mem_cons_of_mem c ht)
    simp [search2, hc, ih ht]

theorem searchFrom_append_no_brace (pre l : List Char) (h : '{' ∉ pre) :
    searchFrom (pre ++ l) = searchFrom l := by
  induction pre with
  | nil => rfl
  | cons c p ih =>
    have hc : c ≠ '{' := fun hc => h (hc ▸ List.mem_cons_self c p)
    have hp : '{' ∉ p := fun hp => h (List.mem_cons_of_mem c hp)
    simp [searchFrom, matchAt_cons_ne c (p ++ l) hc, ih hp]

theorem bodyF_of_balBody {d : Nat} {m : List Char} (h : BalBody d m) :
    ∀ (r : List Char) (fuel : Nat), m.length < fuel →
      bodyF fuel d (m ++ r) = some (m, r) := by
  induction h with
  | @close d =>
    intro r fuel hf
    cases fuel with
    | zero => omega
    | succ f => simp [bodyF]
  | @chr d c t hc1 hc2 _ ih =>
    intro r fuel hf
    cases fuel with
    | zero => omega
    | succ f =>
      have ht : t.length < f := by simp at hf; omega
      simp [bodyF, hc1, hc2, ih r f ht]
  | @obj d inner rest _ _ ihi ihr =>
    intro r fuel hf
    cases fuel with
    | zero => omega
    | succ f =>
      have hi' : inner.length < f := by simp at hf; omega
      have hr' : rest.length < f := by simp at hf; omega
      have e1 : ('{' :: (inner ++ rest)) ++ r = '{' :: (inner ++ (rest ++ r)) := by simp
      rw [e1]
      simp [bodyF, ihi (rest ++ r) f hi', ihr r f hr']

theorem matchAt_balanced (inner rest : List Char) (h : BalBody 2 inner) :
    matchAt ('{' :: (inner ++ rest)) = some ('{' :: inner) := by
  have hb := bodyF_of_balBody h rest ((inner ++ rest).length + 1)
    (by rw [List.length_append]; omega)
  rw [List.length_append] at hb
  simp [matchAt, hb]

theorem mapFields_obj_eq (kvs ekvs : List (String × JVal))
    (he : (getKey kvs "emotion").getD (.obj []) = .obj ekvs) :
    mapFields (.obj kvs) =
      (match pyFloat ((getKey ekvs "joy").getD (.num qZero)),
             pyFloat ((getKey ekvs "anger").getD (.num qZero)),
             pyFloat ((getKey ekvs "sadness").getD (.num qZero)),
             pyFloat ((getKey ekvs "fun").getD (.num qZero)) with
       | some j, some a, some s, some f =>
         some ⟨pyStr ((getKey kvs "message").getD (.str "")), ⟨j, a, s, f⟩⟩
       | _, _, _, _ => none) := by
  simp only [mapFields]
  rw [he]

theorem mapFields_success_emotion_obj (kvs : List (String × JVal)) (r : UnityResponse)
    (hr : mapFields (.obj kvs) = some r) :
    ∃ ekvs, (getKey kvs "emotion").getD (.obj []) = .obj ekvs := by
  simp only [mapFields] at hr
  split at hr
  · next ekvs heq => exact ⟨ekvs, heq⟩
  · simp at hr

theorem mapFields_success_inv (kvs ekvs : List (String × JVal)) (r : UnityResponse)
    (he : (getKey kvs "emotion").getD (.obj []) = .obj ekvs)
    (hr : mapFields (.obj kvs) = some r) :
    pyFloat ((getKey ekvs "joy").getD (.num qZero)) = some r.emotion.joy ∧
    pyFloat ((getKey ekvs "anger").getD (.num qZero)) = some r.emotion.anger ∧
    pyFloat ((getKey ekvs "sadness").getD (.num qZero)) = some r.emotion.sadness ∧
    pyFloat ((getKey ekvs "fun").getD (.num qZero)) = some r.emotion.fun_ ∧
    r.message = pyStr ((getKey kvs "message").getD (.str "")) := by
  rw [mapFields_obj_eq kvs ekvs he] at hr
  split at hr
  · next j a s f hj ha hs hf =>
    cases hr
    exact ⟨hj, ha, hs, hf, rfl⟩
  · simp at hr

theorem mapFields_none_of_float_fail (kvs ekvs : List (String × JVal))
    (he : (getKey kvs "emotion").getD (.obj []) = .obj ekvs)
    (h : pyFloat ((getKey ekvs "joy").getD (.num qZero)) = none ∨
         pyFloat ((getKey ekvs "anger").getD (.num qZero)) = none ∨
         pyFloat ((getKey ekvs "sadness").getD (.num qZero)) = none ∨
         pyFloat ((getKey ekvs "fun").getD (.num qZero)) = none) :
    mapFields (.obj kvs) = none := by
  rw [mapFields_obj_eq kvs ekvs he]
  split
  · next j a s f hj ha hs hf =>
    rcases h with h | h | h | h <;> simp_all
  · rfl

/-! ## Concrete texts used by the claims -/

def exampleText : String := "blah blah \x7b\"message\":\"hi\",\"emotion\":\x7b\"joy\":0.5\x7d\x7d blah"

def nestedText : String :=
  "\x7b\"message\":\"ok\",\"emotion\":\x7b\"joy\":1.0,\"anger\":0.0,\"sadness\":0.0,\"fun\":0.0\x7d\x7d extra \x7bstray\x7d"

def firstObject : String :=
  "\x7b\"message\":\"ok\",\"emotion\":\x7b\"joy\":1.0,\"anger\":0.0,\"sadness\":0.0,\"fun\":0.0\x7d\x7d"

def deep4 : String := "\x7b\"a\":\x7b\"b\":\x7b\"c\":\x7b\"d\":1\x7d\x7d\x7d\x7d"

def deep4Inner : String := "\x7b\"b\":\x7b\"c\":\x7b\"d\":1\x7d\x7d\x7d"

def c5Text : String := "\x7b\"message\":\"hi\",\"emotion\":\x7b\"joy\":\"x\",\"anger\":0.25\x7d\x7d"

def c10Text : String := "\x7b\"message\":\"hi\",\"emotion\":\"bad\"\x7d"

def upstreamNoBrace : JVal :=
  .obj [("candidates", .arr [.obj [("content",
    .obj [("parts", .arr [.obj [("text", .str "hello")]])])]])]

/-! ## Claims -/

/-- C1: for every request to `/chat`, any failure in the pipeline
(upstream call failure, non-2xx status, empty response text, extraction
failure, parse failure, or any unexpected exception) is caught and
converted into the fixed fallback result: HTTP 200 with the fixed
apology message and an all-zero `Emotion`; no failure surfaces as an
HTTP error status.  The body always carries all five required fields
because `UnityResponse` is fully populated by construction.  The third
conjunct is the spec's special case: upstream text with no opening brace
fails extraction and yields the fallback. -/
theorem chat_failures_yield_fallback (u : UpstreamResult) :
    (chat u).1 = 200 ∧
    (pipelineOf u = none → (chat u).2 = fallbackResponse) ∧
    (∀ raw, candidateTextOf u = some raw → '{' ∉ raw.toList →
      (chat u).2 = fallbackResponse) := by
  refine ⟨rfl, ?_, ?_⟩
  · intro h
    simp [chat, h]
  · intro raw hraw hnb
    have hext : extract raw.toList = none := by
      unfold extract
      rw [searchFrom_eq_none_of_no_brace _ hnb, search2_eq_none_of_no_brace _ hnb]
    have hext' : extract raw.data = none := hext
    cases u with
    | err => rfl
    | ok b =>
      have hc : candidateText b = some raw := hraw
      simp [chat, pipelineOf, pipeline, hc, hext']

/-- Witness for C1 at a concrete failing input: a well-shaped upstream
body whose text `"hello"` contains no brace. -/
theorem chat_failures_yield_fallback_witness :
    (chat (.ok upstreamNoBrace)).1 = 200 ∧
    (chat (.ok upstreamNoBrace)).2 = fallbackResponse :=
  ⟨(chat_failures_yield_fallback (.ok upstreamNoBrace)).1,
   (chat_failures_yield_fallback (.ok upstreamNoBrace)).2.2 "hello" rfl (by decide)⟩

/-- C2 counterexample: for this text the first `\x7b` opens a balanced
JSON object of nesting depth 4 (the spec-side scanner returns the whole
text), but the first extraction step captures a different, later span,
because the regex only supports three levels of nesting. -/
theorem regex_depth_limit_counterexample :
    specBalancedSpan deep4.toList = some deep4.toList ∧
    searchFrom deep4.toList = some deep4Inner.toList ∧
    deep4Inner.toList ≠ deep4.toList := by
  exact ⟨by decide, by decide, by decide⟩

/-- C2 amended: the first extraction step performs a brace-balanced
match for nesting depths up to the regex's limit of three: for any text
whose first `\x7b` opens a balanced JSON object of nesting depth at most
3 (the `BalBody 2` interiors), exactly that span is captured, across the
whole text including line breaks. -/
theorem search_captures_balanced_upto_depth_three (pre inner rest : List Char)
    (h1 : '{' ∉ pre) (h2 : BalBody 2 inner) :
    searchFrom (pre ++ '{' :: (inner ++ rest)) = some ('{' :: inner) := by
  rw [searchFrom_append_no_brace pre _ h1]
  simp [searchFrom, matchAt_balanced inner rest h2]

/-- Witness for the amended C2 at the concrete empty object. -/
theorem search_captures_balanced_upto_depth_three_witness :
    searchFrom (([] : List Char) ++ '{' :: (['}'] ++ [])) = some ('{' :: ['}']) :=
  search_captures_balanced_upto_depth_three [] ['}'] [] (by decide) BalBody.close

/-- C3: on the text with a complete object followed by extra braces, the
balanced-brace scan captures exactly the first complete object, while
the span running through the last `\x7d` (what the greedy second regex
would produce) is a different, longer span. -/
theorem nested_braces_first_object_captured :
    searchFrom nestedText.toList = some firstObject.toList ∧
    extract nestedText.toList = some firstObject.toList ∧
    search2 nestedText.toList = some nestedText.toList ∧
    firstObject.toList ≠ nestedText.toList := by
  exact ⟨by decide, by decide, by decide, by decide⟩

/-- C4: on upstream text `blah blah ... blah` the pipeline extracts and
returns `message="hi"`, `joy=0.5`, and zero anger/sadness/fun. -/
theorem extraction_example_hi_joy :
    chatFromText exampleText = ⟨"hi", ⟨mkQ 1 2, qZero, qZero, qZero⟩⟩ := by
  decide

/-- C5 counterexample: with upstream object
`("message":"hi", "emotion": ("joy":"x", "anger":0.25))`, the claim
predicts `message="hi"`, `joy=0`, `anger=0.25`; the code instead raises
in `float("x")` and the whole request falls back: the mapping is `none`
and the response is the fixed fallback, which keeps neither the
extracted message nor the extracted anger value. -/
theorem emotion_nonnumeric_counterexample :
    chatFromText c5Text = fallbackResponse ∧
    mapFields (.obj [("message", .str "hi"),
      ("emotion", .obj [("joy", .str "x"), ("anger", .num (mkQ 1 4))])]) = none ∧
    fallbackResponse.message ≠ "hi" ∧
    fallbackResponse.emotion.anger ≠ mkQ 1 4 := by
  exact ⟨by decide, by decide, by decide, by decide⟩

/-- C5 amended: for every successfully parsed object with a dict-valued
(or absent, hence empty-dict) `emotion`, each of the four emotion fields
independently defaults to 0.0 when absent; a present value is converted
by Python `float(...)` with no clamping to [0,1] (the witness converts
1.5 unchanged); and a present value that `float(...)` rejects
(non-numeric string, `null`, array, object) aborts the whole mapping
(yielding the full fallback) instead of defaulting that field. -/
theorem emotion_field_mapping (kvs ekvs : List (String × JVal))
    (he : (getKey kvs "emotion").getD (.obj []) = .obj ekvs) :
    (∀ r, mapFields (.obj kvs) = some r →
      ((getKey ekvs "joy" = none → r.emotion.joy = qZero) ∧
       (getKey ekvs "anger" = none → r.emotion.anger = qZero) ∧
       (getKey ekvs "sadness" = none → r.emotion.sadness = qZero) ∧
       (getKey ekvs "fun" = none → r.emotion.fun_ = qZero) ∧
       (∀ v q, getKey ekvs "joy" = some v → pyFloat v = some q → r.emotion.joy = q) ∧
       (∀ v q, getKey ekvs "anger" = some v → pyFloat v = some q → r.emotion.anger = q) ∧
       (∀ v q, getKey ekvs "sadness" = some v → pyFloat v = some q → r.emotion.sadness = q) ∧
       (∀ v q, getKey ekvs "fun" = some v → pyFloat v = some q → r.emotion.fun_ = q))) ∧
    (∀ v, getKey ekvs "joy" = some v → pyFloat v = none → mapFields (.obj kvs) = none) ∧
    (∀ v, getKey ekvs "anger" = some v → pyFloat v = none → mapFields (.obj kvs) = none) ∧
    (∀ v, getKey ekvs "sadness" = some v → pyFloat v = none → mapFields (.obj kvs) = none) ∧
    (∀ v, getKey ekvs "fun" = some v → pyFloat v = none → mapFields (.obj kvs) = none) := by
  refine ⟨?_, ?_, ?_, ?_, ?_⟩
  · intro r hr
    obtain ⟨hj, ha, hs, hf, _⟩ := mapFields_success_inv kvs ekvs r he hr
    refine ⟨?_, ?_, ?_, ?_, ?_, ?_, ?_, ?_⟩
    · intro h0; rw [h0] at hj
      simp only [Option.getD_none, pyFloat, Option.some.injEq] at hj
      exact hj.symm
    · intro h0; rw [h0] at ha
      simp only [Option.getD_none, pyFloat, Option.some.injEq] at ha
      exact ha.symm
    · intro h0; rw [h0] at hs
      simp only [Option.getD_none, pyFloat, Option.some.injEq] at hs
      exact hs.symm
    · intro h0; rw [h0] at hf
      simp only [Option.getD_none, pyFloat, Option.some.injEq] at hf
      exact hf.symm
    · intro v q hv hq; rw [hv] at hj; simp only [Option.getD_some] at hj
      rw [hq] at hj; simp only [Option.some.injEq] at hj; exact hj.symm
    · intro v q hv hq; rw [hv] at ha; simp only [Option.getD_some] at ha
      rw [hq] at ha; simp only [Option.some.injEq] at ha; exact ha.symm
    · intro v q hv hq; rw [hv] at hs; simp only [Option.getD_some] at hs
      rw [hq] at hs; simp only [Option.some.injEq] at hs; exact hs.symm
    · intro v q hv hq; rw [hv] at hf; simp only [Option.getD_some] at hf
      rw [hq] at hf; simp only [Option.some.injEq] at hf; exact hf.symm
  · intro v hv hq
    exact mapFields_none_of_float_fail kvs ekvs he (Or.inl (by rw [hv]; exact hq))
  · intro v hv hq
    exact mapFields_none_of_float_fail kvs ekvs he (Or.inr (Or.inl (by rw [hv]; exact hq)))
  · intro v hv hq
    exact mapFields_none_of_float_fail kvs ekvs he
      (Or.inr (Or.inr (Or.inl (by rw [hv]; exact hq))))
  · intro v hv hq
    exact mapFields_none_of_float_fail kvs ekvs he
      (Or.inr (Or.inr (Or.inr (by rw [hv]; exact hq))))

/-- Witness for the amended C5: `joy` present as 1.5 passes through with
no clamping, `anger` absent defaults to zero. -/
theorem emotion_field_mapping_witness :
    (⟨"", ⟨mkQ 3 2, qZero, qZero, qZero⟩⟩ : UnityResponse).emotion.joy = mkQ 3 2 ∧
    (⟨"", ⟨mkQ 3 2, qZero, qZero, qZero⟩⟩ : UnityResponse).emotion.anger = qZero := by
  have h := (emotion_field_mapping [("emotion", .obj [("joy", .num (mkQ 3 2))])]
      [("joy", .num (mkQ 3 2))] rfl).1
      ⟨"", ⟨mkQ 3 2, qZero, qZero, qZero⟩⟩ (by decide)
  exact ⟨h.2.2.2.2.1 (.num (mkQ 3 2)) (mkQ 3 2) rfl rfl, h.2.1 rfl⟩

/-- C6: there is no partial-success outcome: for every upstream result
the `/chat` body is either exactly the fixed fallback or exactly the
field mapping of a successfully extracted and parsed object; no third
shape mixing the two exists. -/
theorem chat_no_partial_success (u : UpstreamResult) :
    (chat u).2 = fallbackResponse ∨
    ∃ b raw span j, u = .ok b ∧ candidateText b = some raw ∧
      extract raw.toList = some span ∧ jsonParse (String.mk span) = some j ∧
      mapFields j = some (chat u).2 := by
  cases u with
  | err => left; rfl
  | ok b =>
    cases hc : candidateText b with
    | none => left; simp [chat, pipelineOf, hc]
    | some raw =>
      cases he : extract raw.toList with
      | none =>
        left
        have he' : extract raw.data = none := he
        simp [chat, pipelineOf, pipeline, hc, he']
      | some span =>
        have he' : extract raw.data = some span := he
        cases hp : jsonParse (String.mk span) with
        | none => left; simp [chat, pipelineOf, pipeline, hc, he', hp]
        | some j =>
          cases hm : mapFields j with
          | none => left; simp [chat, pipelineOf, pipeline, hc, he', hp, hm]
          | some r =>
            right
            refine ⟨b, raw, span, j, rfl, hc, he, hp, ?_⟩
            simp [chat, pipelineOf, pipeline, hc, he', hp, hm]

/-- C7 counterexample: a parsed object whose `message` is `null` (a
wrong, non-string type) is not treated as the empty string: `str(None)`
gives `"None"`. -/
theorem message_wrong_type_counterexample :
    mapFields (.obj [("message", .null)]) =
      some ⟨"None", ⟨qZero, qZero, qZero, qZero⟩⟩ ∧
    ("None" : String) ≠ "" := by
  exact ⟨by decide, by decide⟩

/-- C7 amended: for every successfully parsed object, the response
message is always a string: it is `str(...)` of the `message` value,
the empty string when the key is absent (the `.get` default), and the
value itself when it is a string; a present non-string value is coerced
by `str(...)` to its string form rather than replaced by the empty
string. -/
theorem message_field_mapping (kvs : List (String × JVal)) (r : UnityResponse)
    (hr : mapFields (.obj kvs) = some r) :
    r.message = pyStr ((getKey kvs "message").getD (.str "")) ∧
    (getKey kvs "message" = none → r.message = "") ∧
    (∀ s, getKey kvs "message" = some (.str s) → r.message = s) := by
  obtain ⟨ekvs, he⟩ := mapFields_success_emotion_obj kvs r hr
  have h5 := (mapFields_success_inv kvs ekvs r he hr).2.2.2.2
  refine ⟨h5, ?_, ?_⟩
  · intro hnone; rw [hnone] at h5; exact h5
  · intro s hs; rw [hs] at h5; exact h5

/-- Witness for the amended C7 at `message = True` (a non-string),
coerced to `"True"`. -/
theorem message_field_mapping_witness :
    (⟨"True", ⟨qZero, qZero, qZero, qZero⟩⟩ : UnityResponse).message =
      pyStr ((getKey [("message", JVal.bool true)] "message").getD (.str "")) :=
  (message_field_mapping [("message", JVal.bool true)]
    ⟨"True", ⟨qZero, qZero, qZero, qZero⟩⟩ (by decide)).1

/-- C8 counterexample: with the credential unset there is no
"key not configured" `/chat` result at all — lines 37-40 raise
`RuntimeError` while the module is being imported, so the app never
starts; the only key-dependent behaviour in the program is this
start-up check. -/
theorem missing_key_startup_counterexample :
    startupCheck none = Except.error "GEMINI_API_KEY is not set" := rfl

/-- C8 amended: when the upstream API credential is unset (or empty,
which `not GEMINI_API_KEY` also treats as missing), module start-up
fails with `RuntimeError("GEMINI_API_KEY is not set")` before the server
exists, so no `/chat` request is served and zero network calls are made;
with a non-empty credential start-up succeeds.  There is no per-request
"key not configured" response. -/
theorem missing_key_startup :
    startupCheck none = Except.error "GEMINI_API_KEY is not set" ∧
    startupCheck (some "") = Except.error "GEMINI_API_KEY is not set" ∧
    startupCheck (some "k") = Except.ok () := by
  refine ⟨rfl, by simp [startupCheck], by simp [startupCheck]⟩

/-- C9: the `/ping` handler is intended to return the fixed body
`("status": "ok")` for GET and HEAD, but its parameter annotation
`Request` is a name never imported in `main.py` (line 8 imports only
`FastAPI`), so evaluating `def ping(request: Request)` at import time
raises `NameError` and the route can never serve that body: the claim
describes the evident intent, the code has a missing-import bug. -/
theorem ping_request_annotation_unresolved :
    pingAnnotationResolves = false ∧ pingReturn = .obj [("status", .str "ok")] :=
  ⟨rfl, rfl⟩

/-- C10: if the extracted span parses to an object whose `emotion` key
holds a non-object value (string, number, array, ...), the `.get` call
on it raises `AttributeError` and the handler returns the full fixed
fallback, not a response keeping the extracted `message` with zeroed
emotion fields. -/
theorem nonobject_emotion_full_fallback (raw : String) (span : List Char) (j : JVal)
    (kvs : List (String × JVal)) (v : JVal)
    (h1 : extract raw.toList = some span) (h2 : jsonParse (String.mk span) = some j)
    (h3 : j = .obj kvs) (h4 : getKey kvs "emotion" = some v) (h5 : v.isObj = false) :
    chatFromText raw = fallbackResponse := by
  subst h3
  have hm : mapFields (.obj kvs) = none := by
    simp only [mapFields]
    rw [h4]
    cases v <;> simp_all [JVal.isObj]
  have h1' : extract raw.data = some span := h1
  simp [chatFromText, pipeline, h1', h2, hm]

/-- Witness for C10: upstream object with `emotion` bound to the string
`"bad"`. -/
theorem nonobject_emotion_full_fallback_witness :
    chatFromText c10Text = fallbackResponse :=
  nonobject_emotion_full_fallback c10Text c10Text.toList
    (.obj [("message", .str "hi"), ("emotion", .str "bad")])
    [("message", .str "hi"), ("emotion", .str "bad")] (.str "bad")
    (by decide) rfl rfl rfl rfl
